import Mathlib

/-
Verification development for the Vulnissimo CLI SDK: a shallow embedding of
the result-rendering subsystem (outputters and factory), the risk classifier,
and the scan-progress polling loop, with theorems checking the design
specification against the code.
-/

namespace Vulnissimo

/-- Modelled from the spec: the five-point risk classification of §3
(NONE < LOW < MEDIUM < HIGH < CRITICAL); the models module defining the
`RiskLevel` enum is not under src, only its consumers are. -/
inductive RiskLevel where
  | NONE
  | LOW
  | MEDIUM
  | HIGH
  | CRITICAL
deriving DecidableEq, Repr

/-- Modelled from the spec: the lowercase wire value of a risk level, as used
by `risk_level.value` in the rendering code. -/
def RiskLevel.value : RiskLevel → String
  | .NONE => "none"
  | .LOW => "low"
  | .MEDIUM => "medium"
  | .HIGH => "high"
  | .CRITICAL => "critical"

/-- Modelled from the spec: the scan status enum of §3
(PENDING | RUNNING | FINISHED); the models module defining `ScanStatus` is
not under src. -/
inductive ScanStatus where
  | PENDING
  | RUNNING
  | FINISHED
deriving DecidableEq, Repr

/-- Modelled from the spec: the lowercase wire value of a scan status, as
used by `status.value` in the rendering code. -/
def ScanStatus.value : ScanStatus → String
  | .PENDING => "pending"
  | .RUNNING => "running"
  | .FINISHED => "finished"

/-- Embedding of `ScanResultOutputType` from src/src/vulnissimo/enums.py. -/
inductive ScanResultOutputType where
  | PRETTY
  | JSON
deriving DecidableEq, Repr

/-- Modelled from the spec: one IP-info record of the Recon data of §3. -/
structure IpInfo where
  ip_address : String
  country : String
  network_name : String
  asn : String
deriving DecidableEq, Repr

/-- Modelled from the spec: one open-port record of the Recon data of §3
(port number, service name, product name, optional version; the protocol is
rendered as the fixed string "TCP" and is not stored). -/
structure Port where
  port : Nat
  service : String
  product : String
  version : Option String
deriving DecidableEq, Repr

/-- Modelled from the spec: one detected web-technology record of §3. -/
structure WebTechnology where
  name : String
  version : Option String
  category : String
deriving DecidableEq, Repr

/-- Modelled from the spec: the Recon record of §3, three ordered sequences. -/
structure Recon where
  ip_info : List IpInfo
  ports : List Port
  web_technologies : List WebTechnology
deriving DecidableEq, Repr

/-- Modelled from the spec: the ScanInfo record of §3. The creation
timestamp is carried as its wire string; local-time formatting is a display
concern not touched by any claim. -/
structure ScanInfo where
  target : String
  redirect_url : Option String
  created_at : String
  status : ScanStatus
  progress : Nat
  risk_level : RiskLevel
  scan_type : String
  is_private : Bool
deriving DecidableEq, Repr

/-- Modelled from the spec: §3 treats a Vulnerability as an opaque record
consumed by rendering but never restructured; it is carried as one opaque
payload string. -/
structure Vulnerability where
  data : String
deriving DecidableEq, Repr

/-- Modelled from the spec: the ScanResult record of §3 — scan identifier,
one ScanInfo, one Recon, an ordered sequence of Vulnerability. -/
structure ScanResult where
  id : String
  scan_info : ScanInfo
  recon : Recon
  vulnerabilities : List Vulnerability
deriving DecidableEq, Repr

/-- Embedding of `Outputter._get_color_by_risk_level` from
src/src/vulnissimo/scan_result_output.py: the if-chain mapping a risk level
to a color tag, defaulting to "green". -/
def get_color_by_risk_level (risk_level : RiskLevel) : String :=
  if risk_level = RiskLevel.CRITICAL then "red"
  else if risk_level = RiskLevel.HIGH then "dark_orange"
  else if risk_level = RiskLevel.MEDIUM then "yellow1"
  else if risk_level = RiskLevel.LOW then "dodger_blue2"
  else "green"

/-- Python `str` applied to an optional string: `str(None)` is the text
"None", `str(s)` is `s` itself. -/
def pyStr : Option String → String
  | none => "None"
  | some s => s

/-- Python `or` on strings: returns the first operand when it is truthy
(non-empty), else the second. -/
def pyOr (a b : String) : String :=
  if a = "" then b else a

/-- Modelled from the spec: Python `str.capitalize()` — first character
uppercased, the rest lowercased; on the lowercase enum values used here it
agrees with uppercasing the first character. -/
def pyCapitalize (s : String) : String :=
  s.capitalize

/-- Embedding of `PrettyOutputter._get_scan_info_panel` from
src/src/vulnissimo/scan_result_output.py: the rows of the Scan Info table as
(label, value) pairs, in source order. -/
def scanInfoPanelRows (scan_info : ScanInfo) (scan_id : String) :
    List (String × String) :=
  [ ("Target",
      scan_info.target ++
        (if scan_info.redirect_url ≠ none then " (redirect)" else "")),
    ("Scanned target",
      pyOr (pyStr scan_info.redirect_url) (scan_info.target)),
    ("Started at", scan_info.created_at),
    ("Status",
      pyCapitalize scan_info.status.value ++
        (if scan_info.status = ScanStatus.RUNNING then
          " (" ++ toString scan_info.progress ++ "%)"
        else "")),
    ("Overall risk level", pyCapitalize scan_info.risk_level.value),
    ("Type", pyCapitalize scan_info.scan_type),
    ("Visibility", if scan_info.is_private then "Private" else "Public"),
    ("Scan ID", scan_id) ]

/-- Value shown in the "Scanned target" row of the Scan Info panel. -/
def scannedTargetCell (scan_info : ScanInfo) : String :=
  pyOr (pyStr scan_info.redirect_url) (scan_info.target)

/-- Modelled from the spec: the structured text values of the canonical wire
representation of §6 — JSON objects with stable keys mirroring §3. -/
inductive Json where
  | null
  | str (s : String)
  | num (n : Nat)
  | bool (b : Bool)
  | arr (items : List Json)
  | obj (fields : List (String × Json))

/-- Lookup of a key in a JSON object's field list. -/
def lookupField : List (String × Json) → String → Option Json
  | [], _ => none
  | (k, v) :: rest, key => if k = key then some v else lookupField rest key

/-- Field lookup in a JSON object; `none` on other value shapes. -/
def Json.getField : Json → String → Option Json
  | .obj fields, key => lookupField fields key
  | _, _ => none

/-- Modelled from the spec: serialization of an optional string field, with
JSON null standing for an absent value. -/
def encodeOptStr : Option String → Json
  | none => Json.null
  | some s => Json.str s

/-- Inverse of `encodeOptStr`. -/
def decodeOptStr : Json → Option (Option String)
  | Json.null => some none
  | Json.str s => some (some s)
  | _ => none

/-- Modelled from the spec: serialization of one IP-info record. -/
def encodeIpInfo (x : IpInfo) : Json :=
  Json.obj
    [ ("ip_address", Json.str x.ip_address),
      ("country", Json.str x.country),
      ("network_name", Json.str x.network_name),
      ("asn", Json.str x.asn) ]

/-- Inverse of `encodeIpInfo`. -/
def decodeIpInfo (j : Json) : Option IpInfo := do
  let Json.str ip_address ← j.getField "ip_address" | none
  let Json.str country ← j.getField "country" | none
  let Json.str network_name ← j.getField "network_name" | none
  let Json.str asn ← j.getField "asn" | none
  some ⟨ip_address, country, network_name, asn⟩

/-- Modelled from the spec: serialization of one open-port record. -/
def encodePort (x : Port) : Json :=
  Json.obj
    [ ("port", Json.num x.port),
      ("service", Json.str x.service),
      ("product", Json.str x.product),
      ("version", encodeOptStr x.version) ]

/-- Inverse of `encodePort`. -/
def decodePort (j : Json) : Option Port := do
  let Json.num port ← j.getField "port" | none
  let Json.str service ← j.getField "service" | none
  let Json.str product ← j.getField "product" | none
  let jv ← j.getField "version"
  let version ← decodeOptStr jv
  some ⟨port, service, product, version⟩

/-- Modelled from the spec: serialization of one web-technology record. -/
def encodeWebTechnology (x : WebTechnology) : Json :=
  Json.obj
    [ ("name", Json.str x.name),
      ("version", encodeOptStr x.version),
      ("category", Json.str x.category) ]

/-- Inverse of `encodeWebTechnology`. -/
def decodeWebTechnology (j : Json) : Option WebTechnology := do
  let Json.str name ← j.getField "name" | none
  let jv ← j.getField "version"
  let version ← decodeOptStr jv
  let Json.str category ← j.getField "category" | none
  some ⟨name, version, category⟩

/-- Modelled from the spec: serialization of the Recon record, an object
with three array fields in stable order. -/
def encodeRecon (x : Recon) : Json :=
  Json.obj
    [ ("ip_info", Json.arr (x.ip_info.map encodeIpInfo)),
      ("ports", Json.arr (x.ports.map encodePort)),
      ("web_technologies",
        Json.arr (x.web_technologies.map encodeWebTechnology)) ]

/-- Decoding of a list of JSON values through an element decoder, failing
when any element fails. -/
def decodeItems (dec : Json → Option α) : List Json → Option (List α)
  | [] => some []
  | j :: rest => do
    let a ← dec j
    let as ← decodeItems dec rest
    some (a :: as)

/-- Decoding of a JSON array through an element decoder. -/
def decodeArr (dec : Json → Option α) : Json → Option (List α)
  | Json.arr items => decodeItems dec items
  | _ => none

/-- Inverse of `encodeRecon`. -/
def decodeRecon (j : Json) : Option Recon := do
  let ji ← j.getField "ip_info"
  let ip_info ← decodeArr decodeIpInfo ji
  let jp ← j.getField "ports"
  let ports ← decodeArr decodePort jp
  let jw ← j.getField "web_technologies"
  let web_technologies ← decodeArr decodeWebTechnology jw
  some ⟨ip_info, ports, web_technologies⟩

/-- Modelled from the spec: wire value of a scan status. -/
def encodeStatus (s : ScanStatus) : Json := Json.str s.value

/-- Inverse of `encodeStatus`. -/
def decodeStatus : Json → Option ScanStatus
  | Json.str "pending" => some ScanStatus.PENDING
  | Json.str "running" => some ScanStatus.RUNNING
  | Json.str "finished" => some ScanStatus.FINISHED
  | _ => none

/-- Modelled from the spec: wire value of a risk level. -/
def encodeRiskLevel (r : RiskLevel) : Json := Json.str r.value

/-- Inverse of `encodeRiskLevel`. -/
def decodeRiskLevel : Json → Option RiskLevel
  | Json.str "none" => some RiskLevel.NONE
  | Json.str "low" => some RiskLevel.LOW
  | Json.str "medium" => some RiskLevel.MEDIUM
  | Json.str "high" => some RiskLevel.HIGH
  | Json.str "critical" => some RiskLevel.CRITICAL
  | _ => none

/-- Modelled from the spec: serialization of the ScanInfo record. -/
def encodeScanInfo (x : ScanInfo) : Json :=
  Json.obj
    [ ("target", Json.str x.target),
      ("redirect_url", encodeOptStr x.redirect_url),
      ("created_at", Json.str x.created_at),
      ("status", encodeStatus x.status),
      ("progress", Json.num x.progress),
      ("risk_level", encodeRiskLevel x.risk_level),
      ("type", Json.str x.scan_type),
      ("is_private", Json.bool x.is_private) ]

/-- Inverse of `encodeScanInfo`. -/
def decodeScanInfo (j : Json) : Option ScanInfo := do
  let Json.str target ← j.getField "target" | none
  let jr ← j.getField "redirect_url"
  let redirect_url ← decodeOptStr jr
  let Json.str created_at ← j.getField "created_at" | none
  let js ← j.getField "status"
  let status ← decodeStatus js
  let Json.num progress ← j.getField "progress" | none
  let jl ← j.getField "risk_level"
  let risk_level ← decodeRiskLevel jl
  let Json.str scan_type ← j.getField "type" | none
  let Json.bool is_private ← j.getField "is_private" | none
  some ⟨target, redirect_url, created_at, status, progress, risk_level,
        scan_type, is_private⟩

/-- Modelled from the spec: serialization of an opaque vulnerability
payload. -/
def encodeVulnerability (x : Vulnerability) : Json := Json.str x.data

/-- Inverse of `encodeVulnerability`. -/
def decodeVulnerability : Json → Option Vulnerability
  | Json.str s => some ⟨s⟩
  | _ => none

/-- Modelled from the spec: the canonical JSON representation of a
ScanResult of §6 — scan id, nested scan-info object, nested recon object,
array of vulnerabilities. This is what the JSON outputters write. -/
def encodeScanResult (x : ScanResult) : Json :=
  Json.obj
    [ ("id", Json.str x.id),
      ("scan_info", encodeScanInfo x.scan_info),
      ("recon", encodeRecon x.recon),
      ("vulnerabilities",
        Json.arr (x.vulnerabilities.map encodeVulnerability)) ]

/-- Inverse of `encodeScanResult`: deserialization back into a ScanResult. -/
def decodeScanResult (j : Json) : Option ScanResult := do
  let Json.str id ← j.getField "id" | none
  let js ← j.getField "scan_info"
  let scan_info ← decodeScanInfo js
  let jr ← j.getField "recon"
  let recon ← decodeRecon jr
  let jv ← j.getField "vulnerabilities"
  let vulnerabilities ← decodeArr decodeVulnerability jv
  some ⟨id, scan_info, recon, vulnerabilities⟩

/-- Embedding of the four concrete `Outputter` classes of
src/src/vulnissimo/scan_result_output.py as a tagged variant carrying each
class's constructor-time configuration. -/
inductive Outputter where
  | jsonConsole (indent : Int)
  | prettyConsole
  | jsonFile (output_file : String) (indent : Int)
  | prettyFile (output_file : String)
deriving DecidableEq, Repr

/-- Classification of an `Outputter` value by variant alone, forgetting its
configuration. -/
inductive OutVariant where
  | jsonConsoleV
  | prettyConsoleV
  | jsonFileV
  | prettyFileV
deriving DecidableEq, Repr

/-- Variant of a constructed outputter. -/
def Outputter.variant : Outputter → OutVariant
  | .jsonConsole _ => .jsonConsoleV
  | .prettyConsole => .prettyConsoleV
  | .jsonFile _ _ => .jsonFileV
  | .prettyFile _ => .prettyFileV

/-- Embedding of `OutputterFactory.create_outputter` from
src/src/vulnissimo/scan_result_output.py: selects the concrete variant from
the presence of an output file and the output type. -/
def create_outputter (output_file : Option String)
    (output_type : ScanResultOutputType) (indent : Int) : Outputter :=
  match output_file with
  | none =>
    match output_type with
    | .JSON => Outputter.jsonConsole indent
    | .PRETTY => Outputter.prettyConsole
  | some file =>
    match output_type with
    | .JSON => Outputter.jsonFile file indent
    | .PRETTY => Outputter.prettyFile file

/-- Outcome of one attempt to open a path for writing, as the embedding's
model of the filesystem: success, a permission error carrying `strerror`, or
any other OS error carrying its name. -/
inductive WriteAttempt where
  | ok
  | permError (strerror : String)
  | otherError (errname : String)
deriving DecidableEq, Repr

/-- Observable actions of an outputter's `output` call, in order. -/
inductive OutEvent where
  | fileWrite (path : String) (content : Json)
  | consolePrint (line : String)
  | errorPrint (line : String)
  | promptReply (reply : String)

/-- Final outcome of an outputter's `output` call: normal return, an
uncaught exception named by its error, or blocking on a prompt with no
scripted reply left. -/
inductive OutOutcome where
  | success
  | raised (errname : String)
  | awaitingReply
deriving DecidableEq, Repr

/-- Embedding of `JsonFileOutputter.output` from
src/src/vulnissimo/scan_result_output.py: attempt the file write; on
success, print the confirmation and return; on `PermissionError`, print the
OS reason, prompt for a replacement path, store it in `output_file` and
retry; any other error escapes the loop. `fs` models `open(path, "w+")` and
`replies` scripts the successive prompt answers. Returns the event trace,
the final `output_file` field and the outcome. -/
def jsonFileOutput (output_file : String) (indent : Int)
    (scan_result : ScanResult) (fs : String → WriteAttempt)
    (replies : List String) : List OutEvent × String × OutOutcome :=
  match fs output_file with
  | .ok =>
    ([OutEvent.fileWrite output_file (encodeScanResult scan_result),
      OutEvent.consolePrint
        ("[INFO] Scan result was written to " ++ output_file ++ ".")],
     output_file, OutOutcome.success)
  | .otherError errname => ([], output_file, OutOutcome.raised errname)
  | .permError strerror =>
    let errEv := OutEvent.errorPrint
      ("[ERROR] Could not open file for writing: " ++ strerror ++ ".")
    match replies with
    | [] => ([errEv], output_file, OutOutcome.awaitingReply)
    | reply :: rest =>
      let r := jsonFileOutput reply indent scan_result fs rest
      (errEv :: OutEvent.promptReply reply :: r.1, r.2.1, r.2.2)

/-- Pretty rendering of a scan result written into a file, modelled as the
structured content of the two panels (scan-info rows and the recon record),
which is what `PrettyFileOutputter.output` prints into its file console. -/
def prettyFileContent (scan_result : ScanResult) : Json :=
  Json.obj
    [ ("scan_info_rows",
        Json.arr ((scanInfoPanelRows scan_result.scan_info
          scan_result.id).map (fun row => Json.str (row.1 ++ ": " ++ row.2)))),
      ("recon", encodeRecon scan_result.recon) ]

/-- Embedding of `PrettyFileOutputter.output` from
src/src/vulnissimo/scan_result_output.py: same retry loop as the JSON file
outputter; on success the RUNNING warning (when applicable) goes to the
console after the file write, then the confirmation line naming the file. -/
def prettyFileOutput (output_file : String) (scan_result : ScanResult)
    (fs : String → WriteAttempt) (replies : List String) :
    List OutEvent × String × OutOutcome :=
  match fs output_file with
  | .ok =>
    let warnEvs : List OutEvent :=
      if scan_result.scan_info.status = ScanStatus.RUNNING then
        [OutEvent.consolePrint
          ("[WARNING] The scan is still running (currently at " ++
            toString scan_result.scan_info.progress ++
            "%). Run vulnissimo get " ++ scan_result.id ++
            " again to get the full result when it is ready.")]
      else []
    (OutEvent.fileWrite output_file (prettyFileContent scan_result) ::
      warnEvs ++
      [OutEvent.consolePrint
        ("[INFO] Scan result was written to " ++ output_file ++ ".")],
     output_file, OutOutcome.success)
  | .otherError errname => ([], output_file, OutOutcome.raised errname)
  | .permError strerror =>
    let errEv := OutEvent.errorPrint
      ("[ERROR] Could not open file for writing: " ++ strerror ++ ".")
    match replies with
    | [] => ([errEv], output_file, OutOutcome.awaitingReply)
    | reply :: rest =>
      let r := prettyFileOutput reply scan_result fs rest
      (errEv :: OutEvent.promptReply reply :: r.1, r.2.1, r.2.2)

/-- Observable actions inside the polling loop of the `run` command: the
one-time redirect notice line and the absolute progress-bar update
(`progress.update(task_id, completed=...)`). -/
inductive RunEvent where
  | redirectNotice (url : String)
  | progressUpdate (completed : Nat)
deriving DecidableEq, Repr

/-- Condition under which the redirect notice line is printed, translated
from src/src/vulnissimo/cli.py: the fetched snapshot carries a redirect URL
and either there is no previous snapshot or the previous one carried none. -/
def redirectNoticeFires (prev : Option ScanResult) (s : ScanResult) : Bool :=
  s.scan_info.redirect_url.isSome &&
    (match prev with
     | none => true
     | some p => p.scan_info.redirect_url.isNone)

/-- Embedding of the `while True` polling loop of the `run` command in
src/src/vulnissimo/cli.py. Each scripted fetch either raises `APIError`
(carried as its message) or yields a snapshot; per iteration the loop may
print the redirect notice, always updates the progress display to the
snapshot's absolute progress, and breaks on status FINISHED. Returns the
event trace and either the error, or the final snapshot (`none` when the
scripted fetches run out before any snapshot is FINISHED). -/
def pollLoop (prev : Option ScanResult)
    (fetches : List (Except String ScanResult)) :
    List RunEvent × Except String (Option ScanResult) :=
  match fetches with
  | [] => ([], Except.ok none)
  | Except.error e :: _ => ([], Except.error e)
  | Except.ok s :: rest =>
    let noticeEvs : List RunEvent :=
      if redirectNoticeFires prev s then
        [RunEvent.redirectNotice (pyStr s.scan_info.redirect_url)]
      else []
    let evs := noticeEvs ++ [RunEvent.progressUpdate s.scan_info.progress]
    if s.scan_info.status = ScanStatus.FINISHED then
      (evs, Except.ok (some s))
    else
      let r := pollLoop (some s) rest
      (evs ++ r.1, r.2)

/-- Displayed progress sequence: the value of the progress indicator after
each loop iteration, read off the event trace (one absolute update per
iteration). -/
def displayedProgress (evs : List RunEvent) : List Nat :=
  evs.filterMap (fun ev =>
    match ev with
    | RunEvent.progressUpdate p => some p
    | _ => none)

/-- Redirect notices emitted during a run, in order. -/
def redirectNotices (evs : List RunEvent) : List String :=
  evs.filterMap (fun ev =>
    match ev with
    | RunEvent.redirectNotice u => some u
    | _ => none)

/-- Modelled from the spec: the record returned by `CreateScan` in §6 — the
scan id and a live-tracking URL. -/
structure StartedScan where
  id : String
  html_result : String
deriving DecidableEq, Repr

/-- How a command invocation ended in the embedding: it rendered a result,
it caught an `APIError`, or the scripted fetches ran out while polling. -/
inductive CmdState where
  | completed
  | caughtApiError
  | stillPolling
deriving DecidableEq, Repr

/-- Observable result of one CLI command invocation: informational lines,
polling events, error-stream lines, the outputter invocation (if any) with
the snapshot handed to it, the process exit code, and how the command
ended. -/
structure CmdRun where
  infoLines : List String
  pollEvents : List RunEvent
  errorLines : List String
  rendered : Option (Outputter × ScanResult)
  exitCode : Nat
  state : CmdState
deriving DecidableEq, Repr

/-- Embedding of the `get` command of src/src/vulnissimo/cli.py: fetch the
scan result, build an outputter through the factory and render; on
`APIError` print the message to the error console and fall off the end of
the handler (the process then exits with code 0). -/
def getCmd (fetch : Except String ScanResult) (output_file : Option String)
    (output_type : ScanResultOutputType) (indent : Int) : CmdRun :=
  match fetch with
  | Except.ok sr =>
    { infoLines := [], pollEvents := [], errorLines := [],
      rendered := some (create_outputter output_file output_type indent, sr),
      exitCode := 0, state := CmdState.completed }
  | Except.error e =>
    { infoLines := [], pollEvents := [], errorLines := ["[ERROR] " ++ e],
      rendered := none, exitCode := 0, state := CmdState.caughtApiError }

/-- Embedding of the `run` command of src/src/vulnissimo/cli.py: create the
scan, print the start banner, poll to completion, then render the final
snapshot through a factory-built outputter; an `APIError` from the create
call or any fetch is caught by the single handler, which prints the message
to the error console and falls off the end (exit code 0). -/
def runCmd (createRes : Except String StartedScan) (target : String)
    (fetches : List (Except String ScanResult)) (output_file : Option String)
    (output_type : ScanResultOutputType) (indent : Int) : CmdRun :=
  match createRes with
  | Except.error e =>
    { infoLines := [], pollEvents := [], errorLines := ["[ERROR] " ++ e],
      rendered := none, exitCode := 0, state := CmdState.caughtApiError }
  | Except.ok started =>
    let banner :=
      [ "[INFO] Scan started on " ++ target,
        "[INFO] Scan ID: " ++ started.id,
        "[INFO] See live updates at " ++ started.html_result ]
    let evs := (pollLoop none fetches).1
    match (pollLoop none fetches).2 with
    | Except.error e =>
      { infoLines := banner, pollEvents := evs,
        errorLines := ["[ERROR] " ++ e], rendered := none,
        exitCode := 0, state := CmdState.caughtApiError }
    | Except.ok none =>
      { infoLines := banner, pollEvents := evs, errorLines := [],
        rendered := none, exitCode := 0, state := CmdState.stillPolling }
    | Except.ok (some sr) =>
      { infoLines := banner ++ ["[INFO] Scan complete."], pollEvents := evs,
        errorLines := [],
        rendered := some (create_outputter output_file output_type indent, sr),
        exitCode := 0, state := CmdState.completed }

/-- Prefix of the fetched snapshots actually processed by the polling loop:
everything up to and including the first snapshot with status FINISHED (all
of them when none is FINISHED). -/
def processedSnaps : List ScanResult → List ScanResult
  | [] => []
  | s :: rest =>
    if s.scan_info.status = ScanStatus.FINISHED then [s]
    else s :: processedSnaps rest

/-- Specification-level description of the redirect notices of one run: a
notice fires exactly at a snapshot whose redirect target is present while
the tracked previous redirect state is absent, walking the processed
snapshots in order and stopping after the first FINISHED one. -/
def noticeSpec (prevRedirect : Option String) : List ScanResult → List String
  | [] => []
  | s :: rest =>
    let here : List String :=
      match s.scan_info.redirect_url, prevRedirect with
      | some u, none => [u]
      | _, _ => []
    here ++
      (if s.scan_info.status = ScanStatus.FINISHED then []
      else noticeSpec s.scan_info.redirect_url rest)

/-- JSON value printed by `JsonConsoleOutputter.output`
(`scan_result.model_dump_json()` piped through `print_json`). -/
def jsonConsoleOutput (scan_result : ScanResult) : Json :=
  encodeScanResult scan_result

/-- JSON contents written to files during an outputter run, read off the
event trace. -/
def fileJsonContents (evs : List OutEvent) : List Json :=
  evs.filterMap (fun ev =>
    match ev with
    | OutEvent.fileWrite _ content => some content
    | _ => none)

/-- Sample scan metadata used for concrete test inputs. -/
def sampleScanInfo (progress : Nat) (status : ScanStatus)
    (redirect_url : Option String) : ScanInfo :=
  { target := "https://example.com", redirect_url,
    created_at := "2024-01-01T00:00:00", status, progress,
    risk_level := RiskLevel.LOW, scan_type := "full", is_private := false }

/-- Sample scan-result snapshot used for concrete test inputs. -/
def sampleSnap (progress : Nat) (status : ScanStatus)
    (redirect_url : Option String) : ScanResult :=
  { id := "11111111-2222-3333-4444-555555555555",
    scan_info := sampleScanInfo progress status redirect_url,
    recon := { ip_info := [], ports := [], web_technologies := [] },
    vulnerabilities := [] }

/-- Snapshot sequence of the monotone-progress test: progress values
10, 30, 20, 80, 100 with status FINISHED only at the last. -/
def c1Snaps : List ScanResult :=
  [ sampleSnap 10 ScanStatus.RUNNING none,
    sampleSnap 30 ScanStatus.RUNNING none,
    sampleSnap 20 ScanStatus.RUNNING none,
    sampleSnap 80 ScanStatus.RUNNING none,
    sampleSnap 100 ScanStatus.FINISHED none ]

/-- Snapshot sequence of the redirect-notice test: redirect targets
None, None, "https://x", "https://x", "https://x", FINISHED only at the
last. -/
def c5Snaps : List ScanResult :=
  [ sampleSnap 10 ScanStatus.RUNNING none,
    sampleSnap 20 ScanStatus.RUNNING none,
    sampleSnap 30 ScanStatus.RUNNING (some "https://x"),
    sampleSnap 40 ScanStatus.RUNNING (some "https://x"),
    sampleSnap 100 ScanStatus.FINISHED (some "https://x") ]

/-- Snapshot sequence whose redirect target disappears and then reappears
with the same value: "https://x", None, "https://x". -/
def c5FlapSnaps : List ScanResult :=
  [ sampleSnap 10 ScanStatus.RUNNING (some "https://x"),
    sampleSnap 20 ScanStatus.RUNNING none,
    sampleSnap 100 ScanStatus.FINISHED (some "https://x") ]

/-- Filesystem model of the empty-reply scenario: the initial path is
permission-denied and the empty path raises a non-permission OS error, as
`open("")` does. -/
def emptyReplyFs : String → WriteAttempt :=
  fun path =>
    if path = "out.json" then WriteAttempt.permError "Permission denied"
    else if path = "" then WriteAttempt.otherError "FileNotFoundError"
    else WriteAttempt.ok

/-- Filesystem model where one path is permission-denied and every other
path is writable. -/
def permThenOkFs : String → WriteAttempt :=
  fun path =>
    if path = "locked.json" then WriteAttempt.permError "Permission denied"
    else WriteAttempt.ok

/-- C7: the risk-level-to-color mapping is a total deterministic function on
the five-value risk enum: CRITICAL, HIGH, MEDIUM and LOW map to the fixed
tags "red", "dark_orange", "yellow1" and "dodger_blue2"; every other value
(the remaining enum value NONE) maps to the no-risk tag "green" without
failing; and the five resulting tags are pairwise distinct. -/
theorem c7_risk_color_total_and_distinct :
    get_color_by_risk_level RiskLevel.CRITICAL = "red" ∧
    get_color_by_risk_level RiskLevel.HIGH = "dark_orange" ∧
    get_color_by_risk_level RiskLevel.MEDIUM = "yellow1" ∧
    get_color_by_risk_level RiskLevel.LOW = "dodger_blue2" ∧
    (∀ r : RiskLevel,
      r = RiskLevel.CRITICAL ∨ r = RiskLevel.HIGH ∨ r = RiskLevel.MEDIUM ∨
        r = RiskLevel.LOW ∨ get_color_by_risk_level r = "green") ∧
    List.Nodup ["red", "dark_orange", "yellow1", "dodger_blue2", "green"] := by
  refine ⟨by decide, by decide, by decide, by decide, ?_, by decide⟩
  intro r
  cases r <;> decide

/-- C8: the factory's selection is determined solely by the pair
(destination present?, format): the four construction equations hold, the
chosen variant depends only on presence of the output file and the format,
and the indent argument is not passed to (hence ignored by) the PRETTY
variants. -/
theorem c8_factory_selection :
    (∀ i : Int,
      create_outputter none ScanResultOutputType.JSON i =
        Outputter.jsonConsole i) ∧
    (∀ i : Int,
      create_outputter none ScanResultOutputType.PRETTY i =
        Outputter.prettyConsole) ∧
    (∀ (p : String) (i : Int),
      create_outputter (some p) ScanResultOutputType.JSON i =
        Outputter.jsonFile p i) ∧
    (∀ (p : String) (i : Int),
      create_outputter (some p) ScanResultOutputType.PRETTY i =
        Outputter.prettyFile p) ∧
    (∀ (f g : Option String) (t : ScanResultOutputType) (i j : Int),
      f.isSome = g.isSome →
        (create_outputter f t i).variant = (create_outputter g t j).variant) ∧
    (∀ (f : Option String) (i j : Int),
      create_outputter f ScanResultOutputType.PRETTY i =
        create_outputter f ScanResultOutputType.PRETTY j) := by
  refine ⟨fun i => rfl, fun i => rfl, fun p i => rfl, fun p i => rfl, ?_, ?_⟩
  · intro f g t i j h
    cases f <;> cases g
    · cases t <;> rfl
    · simp at h
    · simp at h
    · cases t <;> rfl
  · intro f i j
    cases f <;> rfl

/-- Witness for C8: two factory calls differing only in the path and the
indent still land in the same variant. -/
theorem c8_factory_selection_witness :
    (create_outputter (some "a.json") ScanResultOutputType.JSON 0).variant =
      (create_outputter (some "b.json") ScanResultOutputType.JSON 7).variant :=
  c8_factory_selection.2.2.2.2.1 (some "a.json") (some "b.json")
    ScanResultOutputType.JSON 0 7 rfl

/-- C2: with no redirect target present, the "Scanned target" row of the
Scan Info panel shows the Python text "None" rather than the original
target, because `str(None)` is the non-empty (truthy) string "None" and the
`or` fallback therefore never fires; the redirect-present half of the row's
contract does hold. -/
theorem c2_scanned_target_row_bug :
    scannedTargetCell (sampleScanInfo 100 ScanStatus.FINISHED none) = "None" ∧
    (sampleScanInfo 100 ScanStatus.FINISHED none).target =
      "https://example.com" ∧
    ("None" : String) ≠ "https://example.com" ∧
    (scanInfoPanelRows (sampleScanInfo 100 ScanStatus.FINISHED none)
        "11111111-2222-3333-4444-555555555555")[1]? =
      some ("Scanned target", "None") ∧
    scannedTargetCell
        (sampleScanInfo 50 ScanStatus.RUNNING (some "https://redirect.example"))
      = "https://redirect.example" := by
  refine ⟨rfl, rfl, by decide, rfl, rfl⟩

theorem displayedProgress_append (a b : List RunEvent) :
    displayedProgress (a ++ b) = displayedProgress a ++ displayedProgress b := by
  simp [displayedProgress, List.filterMap_append]

theorem redirectNotices_append (a b : List RunEvent) :
    redirectNotices (a ++ b) = redirectNotices a ++ redirectNotices b := by
  simp [redirectNotices, List.filterMap_append]

theorem displayedProgress_nil : displayedProgress [] = [] := rfl

theorem displayedProgress_cons_notice (u : String) (l : List RunEvent) :
    displayedProgress (RunEvent.redirectNotice u :: l) = displayedProgress l :=
  rfl

theorem displayedProgress_cons_update (p : Nat) (l : List RunEvent) :
    displayedProgress (RunEvent.progressUpdate p :: l) =
      p :: displayedProgress l := rfl

theorem redirectNotices_nil : redirectNotices [] = [] := rfl

theorem redirectNotices_cons_notice (u : String) (l : List RunEvent) :
    redirectNotices (RunEvent.redirectNotice u :: l) =
      u :: redirectNotices l := rfl

theorem redirectNotices_cons_update (p : Nat) (l : List RunEvent) :
    redirectNotices (RunEvent.progressUpdate p :: l) = redirectNotices l :=
  rfl

theorem redirectNoticeFires_eq (prev : Option ScanResult) (s : ScanResult) :
    redirectNoticeFires prev s =
      (s.scan_info.redirect_url.isSome &&
        (prev.bind fun p => p.scan_info.redirect_url).isNone) := by
  cases prev <;> rfl

/-- C1 counterexample: fed the snapshot sequence with progress values
[10, 30, 20, 80, 100] (FINISHED only at the last), the polling loop's
displayed progress sequence is [10, 30, 20, 80, 100] — the loop sets the
displayed value to each fetched progress absolutely, so the third display
drops back to 20 instead of holding the maximum 30 the claim requires. -/
theorem c1_progress_not_clamped_counterexample :
    displayedProgress (pollLoop none (c1Snaps.map Except.ok)).1 =
      [10, 30, 20, 80, 100] ∧
    displayedProgress (pollLoop none (c1Snaps.map Except.ok)).1 ≠
      [10, 30, 30, 80, 100] := by
  exact ⟨by decide, by decide⟩

/-- C1 amended: the displayed progress value after each polling iteration is
exactly that iteration's fetched progress value — an absolute set with no
clamping — so across a run the displayed sequence equals the progress values
of the processed snapshots verbatim, and for the sequence
[10, 30, 20, 80, 100] the display shows [10, 30, 20, 80, 100]. -/
theorem c1_progress_displayed_verbatim :
    (∀ (prev : Option ScanResult) (snaps : List ScanResult),
      displayedProgress (pollLoop prev (snaps.map Except.ok)).1 =
        (processedSnaps snaps).map (fun s => s.scan_info.progress)) ∧
    displayedProgress (pollLoop none (c1Snaps.map Except.ok)).1 =
      [10, 30, 20, 80, 100] := by
  have main : ∀ (snaps : List ScanResult) (prev : Option ScanResult),
      displayedProgress (pollLoop prev (snaps.map Except.ok)).1 =
        (processedSnaps snaps).map (fun s => s.scan_info.progress) := by
    intro snaps
    induction snaps with
    | nil => intro prev; rfl
    | cons s rest ih =>
      intro prev
      by_cases hf : s.scan_info.status = ScanStatus.FINISHED <;>
        cases hr : redirectNoticeFires prev s <;>
          simp [pollLoop, processedSnaps, hf, hr, displayedProgress_append,
            displayedProgress_nil, displayedProgress_cons_notice,
            displayedProgress_cons_update, ih]
  exact ⟨fun prev snaps => main snaps prev, by decide⟩

/-- C5 counterexample: when the redirect target disappears and then
reappears with the same value ("https://x", None, "https://x"), the loop
prints the redirect notice twice for that single distinct value, because
the guard only compares against the immediately preceding snapshot — so the
notice does not fire at most once per distinct redirect value per run. -/
theorem c5_notice_refires_counterexample :
    redirectNotices (pollLoop none (c5FlapSnaps.map Except.ok)).1 =
      ["https://x", "https://x"] ∧
    ¬ (redirectNotices (pollLoop none (c5FlapSnaps.map Except.ok)).1).Nodup := by
  exact ⟨by decide, by decide⟩

/-- C5 amended: the redirect notice fires exactly at snapshots whose
redirect target is present while the previous snapshot's (if any) is
absent — once per absent-to-present transition, not once per distinct
value — and for the sequence with redirect targets None, None, "https://x",
"https://x", "https://x" exactly one notice is emitted, during the third
iteration, naming the new effective target. -/
theorem c5_redirect_notice_on_transition :
    (∀ snaps : List ScanResult,
      redirectNotices (pollLoop none (snaps.map Except.ok)).1 =
        noticeSpec none snaps) ∧
    redirectNotices (pollLoop none (c5Snaps.map Except.ok)).1 =
      ["https://x"] ∧
    (pollLoop none (c5Snaps.map Except.ok)).1 =
      [ RunEvent.progressUpdate 10, RunEvent.progressUpdate 20,
        RunEvent.redirectNotice "https://x", RunEvent.progressUpdate 30,
        RunEvent.progressUpdate 40, RunEvent.progressUpdate 100 ] := by
  have main : ∀ (snaps : List ScanResult) (prev : Option ScanResult),
      redirectNotices (pollLoop prev (snaps.map Except.ok)).1 =
        noticeSpec (prev.bind fun p => p.scan_info.redirect_url) snaps := by
    intro snaps
    induction snaps with
    | nil => intro prev; rfl
    | cons s rest ih =>
      intro prev
      by_cases hf : s.scan_info.status = ScanStatus.FINISHED <;>
        cases hs : s.scan_info.redirect_url <;>
          cases hpr : prev.bind (fun p => p.scan_info.redirect_url) <;>
            simp [pollLoop, noticeSpec, redirectNoticeFires_eq, hs, hpr, hf,
              redirectNotices_append, redirectNotices_nil,
              redirectNotices_cons_notice, redirectNotices_cons_update,
              pyStr, ih]
  exact ⟨fun snaps => main snaps none, by decide, by decide⟩

/-- C6: the polling loop stops at the first fetched snapshot whose status is
FINISHED regardless of its progress value — the loop's result is exactly the
first FINISHED element of the fetched sequence — and the `run` command hands
exactly that snapshot to the factory-built outputter for rendering. -/
theorem c6_stops_at_first_finished :
    (∀ (prev : Option ScanResult) (snaps : List ScanResult),
      (pollLoop prev (snaps.map Except.ok)).2 =
        Except.ok
          (snaps.find? fun s =>
            decide (s.scan_info.status = ScanStatus.FINISHED))) ∧
    (∀ (started : StartedScan) (target : String) (snaps : List ScanResult)
        (f : Option String) (t : ScanResultOutputType) (i : Int)
        (s : ScanResult),
      snaps.find? (fun s => decide (s.scan_info.status = ScanStatus.FINISHED))
          = some s →
        (runCmd (Except.ok started) target (snaps.map Except.ok) f t i).rendered
          = some (create_outputter f t i, s)) := by
  have main : ∀ (snaps : List ScanResult) (prev : Option ScanResult),
      (pollLoop prev (snaps.map Except.ok)).2 =
        Except.ok
          (snaps.find? fun s =>
            decide (s.scan_info.status = ScanStatus.FINISHED)) := by
    intro snaps
    induction snaps with
    | nil => intro prev; rfl
    | cons s rest ih =>
      intro prev
      by_cases hf : s.scan_info.status = ScanStatus.FINISHED <;>
        simp [pollLoop, List.find?, hf, ih]
  refine ⟨fun prev snaps => main snaps prev, ?_⟩
  intro started target snaps f t i s h
  simp [runCmd, main snaps none, h]

/-- Witness for C6: with a second snapshot FINISHED at progress 40 (below
100), the run renders exactly that snapshot. -/
theorem c6_stops_at_first_finished_witness :
    (runCmd (Except.ok ⟨"id-1", "https://vulnissimo.io/r"⟩)
        "https://example.com"
        ([sampleSnap 10 ScanStatus.RUNNING none,
          sampleSnap 40 ScanStatus.FINISHED none].map Except.ok)
        none ScanResultOutputType.PRETTY 2).rendered =
      some (create_outputter none ScanResultOutputType.PRETTY 2,
        sampleSnap 40 ScanStatus.FINISHED none) :=
  c6_stops_at_first_finished.2 ⟨"id-1", "https://vulnissimo.io/r"⟩
    "https://example.com"
    [sampleSnap 10 ScanStatus.RUNNING none,
      sampleSnap 40 ScanStatus.FINISHED none]
    none ScanResultOutputType.PRETTY 2
    (sampleSnap 40 ScanStatus.FINISHED none) (by decide)

/-- C4 counterexample: when the fetch raises an APIError, the `get` command
catches it, prints the message, and falls off the end of the handler — the
process exit code is 0, not the non-zero outcome the claim requires. -/
theorem c4_exit_code_zero_counterexample :
    (getCmd (Except.error "connection refused") none
        ScanResultOutputType.PRETTY 2).exitCode = 0 ∧
    (getCmd (Except.error "connection refused") none
        ScanResultOutputType.PRETTY 2).errorLines =
      ["[ERROR] connection refused"] ∧
    (getCmd (Except.error "connection refused") none
        ScanResultOutputType.PRETTY 2).rendered = none := by
  exact ⟨rfl, rfl, rfl⟩

/-- C4 amended: for both commands an APIError from the create or fetch call
is caught at the single top-level boundary, its message is printed to the
error stream, no outputter is created or invoked, and the command completes
normally with exit code 0 (the error is not re-raised). -/
theorem c4_api_error_caught_without_rendering :
    (∀ (e : String) (f : Option String) (t : ScanResultOutputType) (i : Int),
      getCmd (Except.error e) f t i =
        { infoLines := [], pollEvents := [], errorLines := ["[ERROR] " ++ e],
          rendered := none, exitCode := 0,
          state := CmdState.caughtApiError }) ∧
    (∀ (e target : String) (fetches : List (Except String ScanResult))
        (f : Option String) (t : ScanResultOutputType) (i : Int),
      runCmd (Except.error e) target fetches f t i =
        { infoLines := [], pollEvents := [], errorLines := ["[ERROR] " ++ e],
          rendered := none, exitCode := 0,
          state := CmdState.caughtApiError }) ∧
    (∀ (started : StartedScan) (target : String)
        (fetches : List (Except String ScanResult)) (f : Option String)
        (t : ScanResultOutputType) (i : Int) (e : String),
      (pollLoop none fetches).2 = Except.error e →
        (runCmd (Except.ok started) target fetches f t i).errorLines =
            ["[ERROR] " ++ e] ∧
          (runCmd (Except.ok started) target fetches f t i).rendered = none ∧
          (runCmd (Except.ok started) target fetches f t i).exitCode = 0) := by
  refine ⟨fun e f t i => rfl, fun e target fetches f t i => rfl, ?_⟩
  intro started target fetches f t i e h
  refine ⟨?_, ?_, ?_⟩ <;> simp [runCmd, h]

/-- Witness for C4 (amended): a run whose first poll fetch raises an
APIError prints the message, renders nothing and exits with code 0. -/
theorem c4_api_error_caught_without_rendering_witness :
    (runCmd (Except.ok ⟨"id-1", "https://vulnissimo.io/r"⟩)
        "https://example.com" [Except.error "boom"] none
        ScanResultOutputType.PRETTY 2).errorLines = ["[ERROR] boom"] ∧
    (runCmd (Except.ok ⟨"id-1", "https://vulnissimo.io/r"⟩)
        "https://example.com" [Except.error "boom"] none
        ScanResultOutputType.PRETTY 2).rendered = none ∧
    (runCmd (Except.ok ⟨"id-1", "https://vulnissimo.io/r"⟩)
        "https://example.com" [Except.error "boom"] none
        ScanResultOutputType.PRETTY 2).exitCode = 0 :=
  c4_api_error_caught_without_rendering.2.2 ⟨"id-1", "https://vulnissimo.io/r"⟩
    "https://example.com" [Except.error "boom"] none
    ScanResultOutputType.PRETTY 2 "boom" rfl

theorem optStr_rt (o : Option String) : decodeOptStr (encodeOptStr o) = some o := by
  cases o <;> rfl

theorem ipInfo_rt (x : IpInfo) : decodeIpInfo (encodeIpInfo x) = some x := by
  cases x; rfl

theorem port_rt (x : Port) : decodePort (encodePort x) = some x := by
  cases x with
  | mk port service product version => cases version <;> rfl

theorem webTechnology_rt (x : WebTechnology) :
    decodeWebTechnology (encodeWebTechnology x) = some x := by
  cases x with
  | mk name version category => cases version <;> rfl

theorem status_rt (s : ScanStatus) : decodeStatus (encodeStatus s) = some s := by
  cases s <;> rfl

theorem riskLevel_rt (r : RiskLevel) :
    decodeRiskLevel (encodeRiskLevel r) = some r := by
  cases r <;> rfl

theorem vulnerability_rt (x : Vulnerability) :
    decodeVulnerability (encodeVulnerability x) = some x := by
  cases x; rfl

theorem items_rt (enc : α → Json) (dec : Json → Option α)
    (h : ∀ a, dec (enc a) = some a) :
    ∀ l : List α, decodeItems dec (l.map enc) = some l := by
  intro l
  induction l with
  | nil => rfl
  | cons a l ih => simp [decodeItems, h, ih]

theorem recon_rt (x : Recon) : decodeRecon (encodeRecon x) = some x := by
  cases x
  simp [decodeRecon, encodeRecon, Json.getField, lookupField, decodeArr,
    items_rt _ _ ipInfo_rt, items_rt _ _ port_rt,
    items_rt _ _ webTechnology_rt]

theorem scanInfo_rt (x : ScanInfo) : decodeScanInfo (encodeScanInfo x) = some x := by
  cases x
  simp [decodeScanInfo, encodeScanInfo, Json.getField, lookupField,
    optStr_rt, status_rt, riskLevel_rt]

theorem scanResult_rt (x : ScanResult) :
    decodeScanResult (encodeScanResult x) = some x := by
  cases x
  simp [decodeScanResult, encodeScanResult, Json.getField, lookupField,
    scanInfo_rt, recon_rt, decodeArr, items_rt _ _ vulnerability_rt]

theorem fileJsonContents_nil : fileJsonContents [] = [] := rfl

theorem fileJsonContents_cons_write (p : String) (c : Json) (l : List OutEvent) :
    fileJsonContents (OutEvent.fileWrite p c :: l) = c :: fileJsonContents l :=
  rfl

theorem fileJsonContents_cons_console (s : String) (l : List OutEvent) :
    fileJsonContents (OutEvent.consolePrint s :: l) = fileJsonContents l := rfl

theorem fileJsonContents_cons_err (s : String) (l : List OutEvent) :
    fileJsonContents (OutEvent.errorPrint s :: l) = fileJsonContents l := rfl

theorem fileJsonContents_cons_prompt (s : String) (l : List OutEvent) :
    fileJsonContents (OutEvent.promptReply s :: l) = fileJsonContents l := rfl

theorem jsonFileOutput_ok (file : String) (i : Int) (sr : ScanResult)
    (fs : String → WriteAttempt) (replies : List String)
    (hf : fs file = WriteAttempt.ok) :
    jsonFileOutput file i sr fs replies =
      ([OutEvent.fileWrite file (encodeScanResult sr),
        OutEvent.consolePrint
          ("[INFO] Scan result was written to " ++ file ++ ".")],
       file, OutOutcome.success) := by
  rw [jsonFileOutput.eq_def, hf]

theorem jsonFileOutput_other (file : String) (i : Int) (sr : ScanResult)
    (fs : String → WriteAttempt) (replies : List String) (e : String)
    (hf : fs file = WriteAttempt.otherError e) :
    jsonFileOutput file i sr fs replies =
      ([], file, OutOutcome.raised e) := by
  rw [jsonFileOutput.eq_def, hf]

theorem jsonFileOutput_perm_nil (file : String) (i : Int) (sr : ScanResult)
    (fs : String → WriteAttempt) (e : String)
    (hf : fs file = WriteAttempt.permError e) :
    jsonFileOutput file i sr fs [] =
      ([OutEvent.errorPrint
          ("[ERROR] Could not open file for writing: " ++ e ++ ".")],
       file, OutOutcome.awaitingReply) := by
  rw [jsonFileOutput.eq_def, hf]

theorem jsonFileOutput_perm_cons (file reply : String) (rest : List String)
    (i : Int) (sr : ScanResult) (fs : String → WriteAttempt) (e : String)
    (hf : fs file = WriteAttempt.permError e) :
    jsonFileOutput file i sr fs (reply :: rest) =
      (OutEvent.errorPrint
          ("[ERROR] Could not open file for writing: " ++ e ++ ".") ::
        OutEvent.promptReply reply :: (jsonFileOutput reply i sr fs rest).1,
       (jsonFileOutput reply i sr fs rest).2.1,
       (jsonFileOutput reply i sr fs rest).2.2) := by
  rw [jsonFileOutput.eq_def, hf]

theorem prettyFileOutput_ok (file : String) (sr : ScanResult)
    (fs : String → WriteAttempt) (replies : List String)
    (hf : fs file = WriteAttempt.ok) :
    prettyFileOutput file sr fs replies =
      (OutEvent.fileWrite file (prettyFileContent sr) ::
        (if sr.scan_info.status = ScanStatus.RUNNING then
          [OutEvent.consolePrint
            ("[WARNING] The scan is still running (currently at " ++
              toString sr.scan_info.progress ++
              "%). Run vulnissimo get " ++ sr.id ++
              " again to get the full result when it is ready.")]
        else []) ++
        [OutEvent.consolePrint
          ("[INFO] Scan result was written to " ++ file ++ ".")],
       file, OutOutcome.success) := by
  rw [prettyFileOutput.eq_def, hf]

theorem prettyFileOutput_other (file : String) (sr : ScanResult)
    (fs : String → WriteAttempt) (replies : List String) (e : String)
    (hf : fs file = WriteAttempt.otherError e) :
    prettyFileOutput file sr fs replies = ([], file, OutOutcome.raised e) := by
  rw [prettyFileOutput.eq_def, hf]

theorem prettyFileOutput_perm_nil (file : String) (sr : ScanResult)
    (fs : String → WriteAttempt) (e : String)
    (hf : fs file = WriteAttempt.permError e) :
    prettyFileOutput file sr fs [] =
      ([OutEvent.errorPrint
          ("[ERROR] Could not open file for writing: " ++ e ++ ".")],
       file, OutOutcome.awaitingReply) := by
  rw [prettyFileOutput.eq_def, hf]

theorem prettyFileOutput_perm_cons (file reply : String) (rest : List String)
    (sr : ScanResult) (fs : String → WriteAttempt) (e : String)
    (hf : fs file = WriteAttempt.permError e) :
    prettyFileOutput file sr fs (reply :: rest) =
      (OutEvent.errorPrint
          ("[ERROR] Could not open file for writing: " ++ e ++ ".") ::
        OutEvent.promptReply reply :: (prettyFileOutput reply sr fs rest).1,
       (prettyFileOutput reply sr fs rest).2.1,
       (prettyFileOutput reply sr fs rest).2.2) := by
  rw [prettyFileOutput.eq_def, hf]

theorem jsonFileOutput_contents (sr : ScanResult) (i : Int)
    (fs : String → WriteAttempt) :
    ∀ (replies : List String) (file : String) (c : Json),
      c ∈ fileJsonContents (jsonFileOutput file i sr fs replies).1 →
        c = encodeScanResult sr := by
  intro replies
  induction replies with
  | nil =>
    intro file c hc
    cases hf : fs file with
    | ok =>
      rw [jsonFileOutput_ok file i sr fs [] hf] at hc
      simpa [fileJsonContents_cons_write, fileJsonContents_cons_console,
        fileJsonContents_nil] using hc
    | permError e =>
      rw [jsonFileOutput_perm_nil file i sr fs e hf] at hc
      simp [fileJsonContents_cons_err, fileJsonContents_nil] at hc
    | otherError e =>
      rw [jsonFileOutput_other file i sr fs [] e hf] at hc
      simp [fileJsonContents_nil] at hc
  | cons reply rest ih =>
    intro file c hc
    cases hf : fs file with
    | ok =>
      rw [jsonFileOutput_ok file i sr fs (reply :: rest) hf] at hc
      simpa [fileJsonContents_cons_write, fileJsonContents_cons_console,
        fileJsonContents_nil] using hc
    | permError e =>
      rw [jsonFileOutput_perm_cons file reply rest i sr fs e hf] at hc
      rw [fileJsonContents_cons_err, fileJsonContents_cons_prompt] at hc
      exact ih reply c hc
    | otherError e =>
      rw [jsonFileOutput_other file i sr fs (reply :: rest) e hf] at hc
      simp [fileJsonContents_nil] at hc

/-- C9: the JSON outputters' output is a faithful serialization: the value
printed by the console JSON outputter and every file content written by the
file JSON outputter deserialize back into a ScanResult equal to the input,
and rendering the same ScanResult to two different writable files produces
identical contents. -/
theorem c9_json_roundtrip :
    (∀ sr : ScanResult, decodeScanResult (jsonConsoleOutput sr) = some sr) ∧
    (∀ (sr : ScanResult) (i : Int) (file : String)
        (fs : String → WriteAttempt) (replies : List String) (c : Json),
      c ∈ fileJsonContents (jsonFileOutput file i sr fs replies).1 →
        decodeScanResult c = some sr) ∧
    (∀ (sr : ScanResult) (i : Int) (f₁ f₂ : String)
        (fs : String → WriteAttempt) (r₁ r₂ : List String),
      fs f₁ = WriteAttempt.ok → fs f₂ = WriteAttempt.ok →
        fileJsonContents (jsonFileOutput f₁ i sr fs r₁).1 =
          fileJsonContents (jsonFileOutput f₂ i sr fs r₂).1) := by
  refine ⟨fun sr => scanResult_rt sr, ?_, ?_⟩
  · intro sr i file fs replies c hc
    rw [jsonFileOutput_contents sr i fs replies file c hc]
    exact scanResult_rt sr
  · intro sr i f₁ f₂ fs r₁ r₂ h₁ h₂
    rw [jsonFileOutput_ok f₁ i sr fs r₁ h₁, jsonFileOutput_ok f₂ i sr fs r₂ h₂]
    rfl

/-- Witness for C9: a concrete scan result written to two different paths
yields the same JSON content, and that content decodes back to the input. -/
theorem c9_json_roundtrip_witness :
    fileJsonContents
        ((jsonFileOutput "a.json" 2 (sampleSnap 100 ScanStatus.FINISHED none)
          (fun _ => WriteAttempt.ok) []).1) =
      fileJsonContents
        ((jsonFileOutput "b.json" 2 (sampleSnap 100 ScanStatus.FINISHED none)
          (fun _ => WriteAttempt.ok) []).1) ∧
    decodeScanResult
        (jsonConsoleOutput (sampleSnap 100 ScanStatus.FINISHED none)) =
      some (sampleSnap 100 ScanStatus.FINISHED none) :=
  ⟨c9_json_roundtrip.2.2 (sampleSnap 100 ScanStatus.FINISHED none) 2
      "a.json" "b.json" (fun _ => WriteAttempt.ok) [] [] rfl rfl,
    c9_json_roundtrip.1 (sampleSnap 100 ScanStatus.FINISHED none)⟩

/-- C3: after a permission failure, answering the prompt with an empty
response does not fall back to writing the scan result to the console: both
file outputters store the empty string as the output path and retry the
file write, and opening the empty path raises a non-permission OS error
(FileNotFoundError) that escapes the retry loop uncaught — the call raises,
writes no file content, and never writes the scan result to the console,
contrary to the prompt's own promise for an empty response. -/
theorem c3_empty_reply_no_console_fallback :
    jsonFileOutput "out.json" 2 (sampleSnap 100 ScanStatus.FINISHED none)
        emptyReplyFs [""] =
      ([OutEvent.errorPrint
          "[ERROR] Could not open file for writing: Permission denied.",
        OutEvent.promptReply ""],
       "", OutOutcome.raised "FileNotFoundError") ∧
    prettyFileOutput "out.json" (sampleSnap 100 ScanStatus.FINISHED none)
        emptyReplyFs [""] =
      ([OutEvent.errorPrint
          "[ERROR] Could not open file for writing: Permission denied.",
        OutEvent.promptReply ""],
       "", OutOutcome.raised "FileNotFoundError") ∧
    OutOutcome.raised "FileNotFoundError" ≠ OutOutcome.success ∧
    fileJsonContents (jsonFileOutput "out.json" 2
        (sampleSnap 100 ScanStatus.FINISHED none) emptyReplyFs [""]).1 = [] := by
  refine ⟨rfl, rfl, by decide, rfl⟩

/-- C10: each permission-failure iteration of either file outputter
overwrites the stored output path with the newly prompted reply (so the
remainder of the run, and any later use of the instance, targets the
replacement path); a successful render's confirmation line names the final
stored path, which is the path actually written (it is the one accepted by
the filesystem); and a render with no permission failure leaves the stored
path unchanged. -/
theorem c10_output_file_overwritten :
    (∀ (file : String) (i : Int) (sr : ScanResult)
        (fs : String → WriteAttempt) (replies : List String),
      fs file = WriteAttempt.ok →
        (jsonFileOutput file i sr fs replies).2.1 = file ∧
        (prettyFileOutput file sr fs replies).2.1 = file) ∧
    (∀ (file reply : String) (rest : List String) (i : Int) (sr : ScanResult)
        (fs : String → WriteAttempt) (e : String),
      fs file = WriteAttempt.permError e →
        (jsonFileOutput file i sr fs (reply :: rest)).2.1 =
          (jsonFileOutput reply i sr fs rest).2.1 ∧
        (prettyFileOutput file sr fs (reply :: rest)).2.1 =
          (prettyFileOutput reply sr fs rest).2.1) ∧
    (∀ (file : String) (i : Int) (sr : ScanResult)
        (fs : String → WriteAttempt) (replies : List String),
      (jsonFileOutput file i sr fs replies).2.2 = OutOutcome.success →
        fs (jsonFileOutput file i sr fs replies).2.1 = WriteAttempt.ok ∧
        OutEvent.consolePrint
            ("[INFO] Scan result was written to " ++
              (jsonFileOutput file i sr fs replies).2.1 ++ ".")
          ∈ (jsonFileOutput file i sr fs replies).1) ∧
    (∀ (file : String) (sr : ScanResult) (fs : String → WriteAttempt)
        (replies : List String),
      (prettyFileOutput file sr fs replies).2.2 = OutOutcome.success →
        fs (prettyFileOutput file sr fs replies).2.1 = WriteAttempt.ok ∧
        OutEvent.consolePrint
            ("[INFO] Scan result was written to " ++
              (prettyFileOutput file sr fs replies).2.1 ++ ".")
          ∈ (prettyFileOutput file sr fs replies).1) := by
  have mainJ : ∀ (i : Int) (sr : ScanResult) (fs : String → WriteAttempt)
      (replies : List String) (file : String),
      (jsonFileOutput file i sr fs replies).2.2 = OutOutcome.success →
        fs (jsonFileOutput file i sr fs replies).2.1 = WriteAttempt.ok ∧
        OutEvent.consolePrint
            ("[INFO] Scan result was written to " ++
              (jsonFileOutput file i sr fs replies).2.1 ++ ".")
          ∈ (jsonFileOutput file i sr fs replies).1 := by
    intro i sr fs replies
    induction replies with
    | nil =>
      intro file h
      cases hf : fs file with
      | ok =>
        rw [jsonFileOutput_ok file i sr fs [] hf]
        exact ⟨hf, by simp⟩
      | permError e =>
        rw [jsonFileOutput_perm_nil file i sr fs e hf] at h
        simp at h
      | otherError e =>
        rw [jsonFileOutput_other file i sr fs [] e hf] at h
        simp at h
    | cons reply rest ih =>
      intro file h
      cases hf : fs file with
      | ok =>
        rw [jsonFileOutput_ok file i sr fs (reply :: rest) hf]
        exact ⟨hf, by simp⟩
      | permError e =>
        rw [jsonFileOutput_perm_cons file reply rest i sr fs e hf] at h ⊢
        obtain ⟨h1, h2⟩ := ih reply h
        exact ⟨h1, List.mem_cons_of_mem _ (List.mem_cons_of_mem _ h2)⟩
      | otherError e =>
        rw [jsonFileOutput_other file i sr fs (reply :: rest) e hf] at h
        simp at h
  have mainP : ∀ (sr : ScanResult) (fs : String → WriteAttempt)
      (replies : List String) (file : String),
      (prettyFileOutput file sr fs replies).2.2 = OutOutcome.success →
        fs (prettyFileOutput file sr fs replies).2.1 = WriteAttempt.ok ∧
        OutEvent.consolePrint
            ("[INFO] Scan result was written to " ++
              (prettyFileOutput file sr fs replies).2.1 ++ ".")
          ∈ (prettyFileOutput file sr fs replies).1 := by
    intro sr fs replies
    induction replies with
    | nil =>
      intro file h
      cases hf : fs file with
      | ok =>
        rw [prettyFileOutput_ok file sr fs [] hf]
        exact ⟨hf, by simp⟩
      | permError e =>
        rw [prettyFileOutput_perm_nil file sr fs e hf] at h
        simp at h
      | otherError e =>
        rw [prettyFileOutput_other file sr fs [] e hf] at h
        simp at h
    | cons reply rest ih =>
      intro file h
      cases hf : fs file with
      | ok =>
        rw [prettyFileOutput_ok file sr fs (reply :: rest) hf]
        exact ⟨hf, by simp⟩
      | permError e =>
        rw [prettyFileOutput_perm_cons file reply rest sr fs e hf] at h ⊢
        obtain ⟨h1, h2⟩ := ih reply h
        exact ⟨h1, List.mem_cons_of_mem _ (List.mem_cons_of_mem _ h2)⟩
      | otherError e =>
        rw [prettyFileOutput_other file sr fs (reply :: rest) e hf] at h
        simp at h
  refine ⟨?_, ?_, fun file i sr fs replies => mainJ i sr fs replies file,
    fun file sr fs replies => mainP sr fs replies file⟩
  · intro file i sr fs replies h
    exact ⟨by rw [jsonFileOutput_ok file i sr fs replies h],
      by rw [prettyFileOutput_ok file sr fs replies h]⟩
  · intro file reply rest i sr fs e h
    exact ⟨by rw [jsonFileOutput_perm_cons file reply rest i sr fs e h],
      by rw [prettyFileOutput_perm_cons file reply rest sr fs e h]⟩

/-- Witness for C10: with a first path permission-denied and the prompted
replacement writable, the final stored path is the replacement and the
confirmation names it; with a writable first path the stored path is
unchanged. -/
theorem c10_output_file_overwritten_witness :
    (jsonFileOutput "ok.json" 2 (sampleSnap 100 ScanStatus.FINISHED none)
        (fun _ => WriteAttempt.ok) []).2.1 = "ok.json" ∧
    (jsonFileOutput "locked.json" 2 (sampleSnap 100 ScanStatus.FINISHED none)
        permThenOkFs ["free.json"]).2.1 =
      (jsonFileOutput "free.json" 2 (sampleSnap 100 ScanStatus.FINISHED none)
        permThenOkFs []).2.1 ∧
    OutEvent.consolePrint
        ("[INFO] Scan result was written to " ++
          (jsonFileOutput "locked.json" 2
            (sampleSnap 100 ScanStatus.FINISHED none) permThenOkFs
            ["free.json"]).2.1 ++ ".")
      ∈ (jsonFileOutput "locked.json" 2
          (sampleSnap 100 ScanStatus.FINISHED none) permThenOkFs
          ["free.json"]).1 :=
  ⟨(c10_output_file_overwritten.1 "ok.json" 2
      (sampleSnap 100 ScanStatus.FINISHED none) (fun _ => WriteAttempt.ok) []
      rfl).1,
    (c10_output_file_overwritten.2.1 "locked.json" "free.json" [] 2
      (sampleSnap 100 ScanStatus.FINISHED none) permThenOkFs
      "Permission denied" rfl).1,
    (c10_output_file_overwritten.2.2.1 "locked.json" 2
      (sampleSnap 100 ScanStatus.FINISHED none) permThenOkFs ["free.json"]
      rfl).2⟩

end Vulnissimo
